import Mathlib

/-!
# Verification of the Denver crime-analysis scripts

A shallow embedding of the control flow and the aggregation logic of the
repository's Python sources (`run.py`, `utils.py`, `data.py`, `plotting.py`,
`plotting_utils.py`), together with theorems checking the specification's
claims against it.

Conventions of the embedding:
* external effects the control flow branches on (did `pd.read_csv` succeed,
  does a file exist, did the user consent) are explicit boolean fields of an
  environment record;
* a Python function that can return a flag, call `sys.exit`, or let an
  exception escape returns a sum-like result type;
* printed error messages and written output files are collected in lists so
  that theorems can talk about them.
-/

namespace DenverCrime

/-- The exceptions that can escape the scripts: the four classes of
`custom_exceptions.py` (all deriving `BaseException`) plus the Python
exceptions the code can hit (`AttributeError` from `frame.solumns`,
`AssertionError` from a failed `assert`, `NameError` from the
never-imported `plot_data` in `run.py`, `ValueError` from an uncaught
`pd.to_datetime` on unparseable dates, a `requests` connection error from
the uncaught `requests.get`, and `FileNotFoundError` from the uncaught
`open`). -/
inductive PyExc where
  | actionArgumentsException
  | unsupportedFileTypeError
  | unsupportedPlotError
  | nanException
  | attributeError
  | assertionError
  | nameError
  | valueError
  | connectionError
  | fileNotFoundError
  deriving DecidableEq, Repr

/-! ## run.py -/

/-- The values admitted by run.py's `--actions` flag
(`choices=['collect', 'process', 'plot', 'all']`). -/
inductive Action where
  | collect
  | process
  | plot
  | all
  deriving DecidableEq, Repr

/-- How a run of run.py ends: the dispatch loop finishes, `sys.exit` is
called with a message, or an exception escapes. -/
inductive RunOutcome where
  | finished
  | exited (msg : String)
  | raised (e : PyExc)
  deriving DecidableEq, Repr

/-- Success of the two stage functions run.py imports from `data.py`. -/
structure StageEnv where
  collectOk : Bool
  processOk : Bool
  deriving DecidableEq, Repr

/-- The dispatch loop of run.py (lines 68-89) on a stack of actions,
consuming the head first.  Python's `actions.pop()` removes the LAST list
element, so run.py runs this on the reversed `--actions` list (see
`runScript`).  Returns the stage functions actually called, in call order,
and the outcome.  The `'plot'` case evaluates `plot_data()`, a name run.py
never imports, so it raises `NameError` before any stage runs; `'all'` only
matches the final wildcard `case _: pass` and runs nothing. -/
def runStack (env : StageEnv) : List Action → List Action × RunOutcome
  | [] => ([], .finished)
  | .collect :: rest =>
      if env.collectOk then
        let (t, o) := runStack env rest
        (.collect :: t, o)
      else ([.collect], .exited "There was an error collecting the data")
  | .process :: rest =>
      if env.processOk then
        let (t, o) := runStack env rest
        (.process :: t, o)
      else ([.process], .exited "There was an error processing the data")
  | .plot :: _ => ([], .raised .nameError)
  | .all :: rest => runStack env rest

/-- run.py top level: validate the `--actions` list (at most two entries,
and `all` not combined with another action, lines 57-64), then run the
dispatch loop, which pops from the end of the list. -/
def runScript (env : StageEnv) (actions : List Action) : List Action × RunOutcome :=
  if actions.length > 2 then ([], .raised .actionArgumentsException)
  else if actions.length = 2 ∧ Action.all ∈ actions then
    ([], .raised .actionArgumentsException)
  else runStack env actions.reverse

/-! ## utils.py -/

/-- `utils.validate`, modelled over the stream of strings the user types:
the loop returns `True` on the first input found in the accept list,
`False` on the first input found in the reject list (the accept list is
checked first), and consumes any other input with an error message and
re-prompts.  `none` models a stream on which the loop never returns. -/
def validate (accept reject : List String) : List String → Option Bool
  | [] => none
  | x :: rest =>
      if x ∈ accept then some true
      else if x ∈ reject then some false
      else validate accept reject rest

/-! ## data.py: process_data -/

/-- The arguments of `data.process_data` together with the environment
facts its control flow branches on: whether `pd.read_csv` succeeds, the
columns of the loaded frame, and whether each dataframe step inside a
try/except succeeds.  `solumnsSubsetOk` is the value of the `issubset`
test in the exotic case that the frame really has a column named
`solumns` (pandas resolves missing attributes to columns of that name). -/
structure ProcessEnv where
  readOk : Bool
  columns : List String
  dropColumns : Option (List String)
  handleNa : Option String
  normalization : Option String
  outfileFormat : String
  fname : String
  solumnsSubsetOk : Bool
  dropStepOk : Bool
  dropnaOk : Bool
  applymapOk : Bool
  deriving DecidableEq, Repr

deriving instance DecidableEq for Except

/-- Observable result of `process_data`: the returned flag or the escaped
exception, the output files written, the error messages printed, and
whether the `frame.drop(columns=...)` step was ever reached. -/
structure ProcessOut where
  result : Except PyExc Bool
  writes : List String
  messages : List String
  dropStepRan : Bool
  deriving DecidableEq, Repr

/-- `fname.split('.')[0]` (data.py line 186): the prefix of the file name
up to the first dot. -/
def fileBaseName (fname : String) : String :=
  ⟨fname.toList.takeWhile fun c => c ≠ '.'⟩

/-- The `match outfile_format` tail of `process_data` (lines 186-202):
`csv` and `parquet` write `<base>_processed.<ext>` and the function returns
`True`; anything else raises `UnsupportedFileTypeError`. -/
def processDataWrite (env : ProcessEnv) (dropRan : Bool) : ProcessOut :=
  if env.outfileFormat = "csv" then
    ⟨.ok true, [fileBaseName env.fname ++ "_processed.csv"], [], dropRan⟩
  else if env.outfileFormat = "parquet" then
    ⟨.ok true, [fileBaseName env.fname ++ "_processed.parquet"], [], dropRan⟩
  else ⟨.error .unsupportedFileTypeError, [], [], dropRan⟩

/-- The `match normalization` block of `process_data` (lines 158-184):
`lower`/`upper` run an `applymap` inside try/except (printing and
returning `False` on failure); any other value falls through. -/
def processDataNormalize (env : ProcessEnv) (dropRan : Bool) : ProcessOut :=
  if env.normalization = some "lower" then
    if env.applymapOk then processDataWrite env dropRan
    else ⟨.ok false, [], ["There was an error converting the data to lowercase"], dropRan⟩
  else if env.normalization = some "upper" then
    if env.applymapOk then processDataWrite env dropRan
    else ⟨.ok false, [], ["There was an error converting the data to uppercase"], dropRan⟩
  else processDataWrite env dropRan

/-- The `match handle_na` block of `process_data` (lines 134-155):
`drop_row`/`drop_column` run a `dropna` inside try/except; any other value
falls through to the normalization block. -/
def processDataHandleNa (env : ProcessEnv) (dropRan : Bool) : ProcessOut :=
  if env.handleNa = some "drop_row" then
    if env.dropnaOk then processDataNormalize env dropRan
    else ⟨.ok false, [], ["There was an error dropping the rows that contain NaN values"], dropRan⟩
  else if env.handleNa = some "drop_column" then
    if env.dropnaOk then processDataNormalize env dropRan
    else ⟨.ok false, [], ["There was an error dropping the columns that contain NaN values"], dropRan⟩
  else processDataNormalize env dropRan

/-- `data.process_data` (lines 85-202).  A failed read prints and returns
`False`.  The precondition `assert(drop_columns is None or
set(drop_columns).issubset(set(frame.solumns)))` short-circuits when
`drop_columns` is `None`; otherwise it evaluates `frame.solumns`, which
raises `AttributeError` unless a column is literally named `solumns`
(if one is, a failed subset test raises `AssertionError`); the assert is
outside every try/except, so both exceptions escape.  Only then comes the
`frame.drop` step, wrapped in try/except. -/
def processData (env : ProcessEnv) : ProcessOut :=
  if env.readOk = false then
    ⟨.ok false, [], ["There was an error opening the specified file"], false⟩
  else
    match env.dropColumns with
    | none => processDataHandleNa env false
    | some _ =>
        if "solumns" ∈ env.columns then
          if env.solumnsSubsetOk then
            if env.dropStepOk then processDataHandleNa env true
            else ⟨.ok false, [],
              ["There was an error dropping the specified columns from the dataframe"], true⟩
          else ⟨.error .assertionError, [], [], false⟩
        else ⟨.error .attributeError, [], [], false⟩

/-- The `with open(...)` wrapper of data.py line 110, outside every
try/except: when the input file does not exist, `open` raises
`FileNotFoundError` before `process_data`'s caught read path is ever
reached (only the `pd.read_csv` inside the `with` is in a try/except). -/
def processDataCall (fileExists : Bool) (env : ProcessEnv) :
    Except PyExc ProcessOut :=
  if fileExists = false then .error .fileNotFoundError
  else .ok (processData env)

/-! ## data.py: collect_data -/

/-- The environment `data.collect_data` runs in: whether `os.mkdir`
succeeds (the data directory does not already exist), whether the user
consents to deleting an existing directory when prompted, whether
`requests.get` succeeds, and whether the download loop writing
`crime.csv` succeeds. -/
structure CollectEnv where
  mkdirOk : Bool
  userConsent : Bool
  requestOk : Bool
  downloadOk : Bool
  deriving DecidableEq, Repr

/-! ## plotting.py: plot_data -/

/-- Which data file `plot_data` ends up reading (plotting.py lines
123-140). -/
inductive DataSource where
  | processedFile
  | rawFile
  deriving DecidableEq, Repr

/-- Which of the two candidate input files exist in `data/`. -/
structure PlotFS where
  processedExists : Bool
  rawExists : Bool
  deriving DecidableEq, Repr

/-- The load phase of `plot_data`: try `crime_processed.csv` first and set
the processed indicator to `True`; on `FileNotFoundError` fall back to
`crime.csv` with the indicator left `False`; `none` when neither file
exists (`plot_data` then prints and returns `False`). -/
def loadCrimeData (fs : PlotFS) : Option (DataSource × Bool) :=
  if fs.processedExists then some (.processedFile, true)
  else if fs.rawExists then some (.rawFile, false)
  else none

/-- The environment `plot_data` runs in: whether the plots-directory setup
of lines 80-101 completes (the user consents when the directory already
exists), the data files present, and whether the two dispatched plotting
functions return `True`. -/
structure PlotEnv where
  dirOk : Bool
  fs : PlotFS
  yearPlotOk : Bool
  monthPlotOk : Bool
  deriving DecidableEq, Repr

/-- How a call of `plot_data` ends (and of `collect_data`, which has the
same shape): `sys.exit("User exit")`, an escaped exception, or a returned
flag. -/
inductive PlotsResult where
  | userExit
  | raised (e : PyExc)
  | returned (b : Bool)
  deriving DecidableEq, Repr

/-- `data.collect_data` (data.py lines 28-83), paired with the error
messages printed.  The `os.mkdir` try/except prompts the user and calls
`sys.exit("User exit")` on refusal; `requests.get` at line 66 is outside
every try/except, so its failure escapes; a failure of the download loop
is caught and returns `False` WITHOUT printing any message (the except
block at lines 81-83 is bare). -/
def collectData (env : CollectEnv) : PlotsResult × List String :=
  if env.mkdirOk = false ∧ env.userConsent = false then (.userExit, [])
  else if env.requestOk = false then (.raised .connectionError, [])
  else if env.downloadOk = false then (.returned false, [])
  else (.returned true, [])

/-- Result of `plot_data` plus the list of charts exported, in order. -/
structure PlotDataOut where
  result : PlotsResult
  produced : List String
  deriving DecidableEq, Repr

/-- plotting.py line 105: the only keyword arguments `plot_data`
accepts. -/
def SUPPORTED_PLOTS : List String := ["crimes_by_year", "crimes_by_month"]

/-- `kwargs.get(k, False)` over the keyword arguments of `plot_data`. -/
def kwLookup (kwargs : List (String × Bool)) (k : String) : Bool :=
  match kwargs.lookup k with
  | some b => b
  | none => false

/-- `plotting.plot_data` (lines 36-162): set up the plots directory (or
`sys.exit` if the user refuses), raise `UnsupportedPlotError` unless the
keyword names are a subset of `SUPPORTED_PLOTS`, load the data with the
processed-file-first fallback, then run the selected plots in order,
returning `False` as soon as one fails and `True` otherwise. -/
def plotData (env : PlotEnv) (kwargs : List (String × Bool)) : PlotDataOut :=
  if env.dirOk = false then ⟨.userExit, []⟩
  else if (kwargs.all fun kv => decide (kv.1 ∈ SUPPORTED_PLOTS)) = false then
    ⟨.raised .unsupportedPlotError, []⟩
  else
    match loadCrimeData env.fs with
    | none => ⟨.returned false, []⟩
    | some _ =>
        let cby := kwLookup kwargs "crimes_by_year"
        let cbm := kwLookup kwargs "crimes_by_month"
        if cby && !env.yearPlotOk then ⟨.returned false, []⟩
        else
          let p1 : List String := if cby then ["crimes_by_year"] else []
          if cbm && !env.monthPlotOk then ⟨.returned false, p1⟩
          else ⟨.returned true, p1 ++ if cbm then ["crimes_by_month"] else []⟩

/-! ## plot_crimes_by_month as a stage: step outcomes -/

/-- Per-step success flags for one call of `plot_crimes_by_month`
(identical code in plotting.py lines 241-371 and plotting_utils.py lines
95-225): the `reported_date` column is present (the `assert` at the top),
the `pd.to_datetime` date parsing at plotting.py line 254 succeeds, the
dataframe operations in the first try block succeed, the NaN sanity
checks find no NaNs, the bokeh figure builds, and `export_png` saves the
file. -/
structure MonthStageEnv where
  hasReportedDate : Bool
  toDatetimeOk : Bool
  processOk : Bool
  nanFree : Bool
  figureOk : Bool
  saveOk : Bool
  deriving DecidableEq, Repr

/-- How a stage function ends: a returned flag or an escaped exception. -/
inductive StageResult where
  | raised (e : PyExc)
  | returned (b : Bool)
  deriving DecidableEq, Repr

/-- `plot_crimes_by_month` viewed through its step outcomes, paired with
the error messages printed.  The `assert` and the `pd.to_datetime` call
(plotting.py line 254 / plotting_utils.py line 108) are outside every
try/except, so they escape as `AssertionError` and (for unparseable
dates) `ValueError`; a `NanException` raised inside the first try block
derives `BaseException`, so `except Exception` does NOT catch it and it
escapes; failures of the dataframe processing and of the figure build are
caught, printed, and return `False`; a failure of the final `export_png`
is caught and printed, but the code then falls through to
`return True`. -/
def plotCrimesByMonthStage (env : MonthStageEnv) : StageResult × List String :=
  if env.hasReportedDate = false then (.raised .assertionError, [])
  else if env.toDatetimeOk = false then (.raised .valueError, [])
  else if env.processOk = false then
    (.returned false, ["There was an error processing the data prior to plotting"])
  else if env.nanFree = false then (.raised .nanException, [])
  else if env.figureOk = false then
    (.returned false, ["There was an error plotting the data"])
  else if env.saveOk = false then
    (.returned true, ["There was an error saving the file to the specified location"])
  else (.returned true, [])

/-! ## The aggregation core: grouping, pivoting, ordering -/

/-- One record of the crime dataset as `plot_crimes_by_month` sees it
after date parsing: the derived `crime_year` and `crime_month` columns
(plotting.py lines 259, 284-285). -/
structure CrimeRow where
  year : Int
  month : String
  deriving DecidableEq, Repr

/-- One record as `plot_crimes_by_neighborhood` sees it: the derived
`reported_year` column and the `neighborhood_id` column
(plotting_utils.py lines 477-483). -/
structure NeighborhoodRow where
  year : Int
  neighborhood : String
  deriving DecidableEq, Repr

/-- `pandas.Series.unique()` / the key set of `value_counts().to_dict()`:
the distinct values of a column, in order of first appearance. -/
def pyUniqueAux [DecidableEq α] (seen : List α) : List α → List α
  | [] => []
  | a :: l =>
      if a ∈ seen then pyUniqueAux seen l
      else a :: pyUniqueAux (a :: seen) l

/-- Distinct values of a list in order of first appearance. -/
def pyUnique [DecidableEq α] (l : List α) : List α :=
  pyUniqueAux [] l

/-- `data["crime_month"].value_counts().to_dict()` looked up with default
`0`: the number of rows whose `crime_month` is `m`. -/
def monthValueCounts (rows : List CrimeRow) (m : String) : Nat :=
  (rows.map CrimeRow.month).count m

/-- `data.query("crime_year == @year")["crime_month"].value_counts()
.to_dict().get(month, 0)` (plotting.py lines 312-317): the number of the
year's rows in the given month. -/
def yearMonthCount (rows : List CrimeRow) (y : Int) (m : String) : Nat :=
  ((rows.filter fun r => r.year = y).map CrimeRow.month).count m

/-- `data["crime_year"].unique()` (plotting.py line 310). -/
def uniqueYears (rows : List CrimeRow) : List Int :=
  pyUnique (rows.map CrimeRow.year)

/-- The per-year series the pivot loop builds (plotting.py lines
313-317): one count per month of `orderedMonths`, in that order. -/
def yearSeries (rows : List CrimeRow) (orderedMonths : List String) (y : Int) : List Nat :=
  orderedMonths.map (yearMonthCount rows y)

/-- The year-keyed pivot of `plot_crimes_by_month` (plotting.py lines
304-321): for each year of the data, in `unique()` order, the year's
series over `orderedMonths`. -/
def forPlotSeries (rows : List CrimeRow) (orderedMonths : List String) :
    List (Int × List Nat) :=
  (uniqueYears rows).map fun y => (y, yearSeries rows orderedMonths y)

/-- `list(MONTHS_MAP.values())` (plotting.py lines 270-283, 301): the
twelve month labels in calendar order. -/
def monthsMapValues : List String :=
  ["jan", "feb", "mar", "apr", "may", "jun",
   "jul", "aug", "sep", "oct", "nov", "dec"]

/-- The keys of `data["crime_month"].value_counts().to_dict()`: the
distinct months occurring in the data.  The theorems below only use this
list up to permutation, so its order is modelled as first occurrence. -/
def monthsPresent (rows : List CrimeRow) : List String :=
  pyUnique (rows.map CrimeRow.month)

/-- The `match sort_months` of `plot_crimes_by_month` (plotting.py lines
293-301).  `count_order` is `sorted(crimes_by_month, key=lambda x:
crimes_by_month[x])`: Python's `sorted` is a stable ascending sort by the
key, and a stable sort with respect to a total preorder is unique, so
insertion sort computes the same list.  `year_order` is
`list(MONTHS_MAP.values())`.  The match has no wildcard: any other value
leaves `ordered_months` unassigned, modelled as `none`. -/
def orderedMonthsOf (sortMonths : String) (rows : List CrimeRow) :
    Option (List String) :=
  if sortMonths = "count_order" then
    some (List.insertionSort
      (fun a b => monthValueCounts rows a ≤ monthValueCounts rows b)
      (monthsPresent rows))
  else if sortMonths = "year_order" then some monthsMapValues
  else none

/-- `data["neighborhood_id"].value_counts().to_dict()` looked up with
default `0`. -/
def neighborhoodValueCounts (rows : List NeighborhoodRow) (n : String) : Nat :=
  (rows.map NeighborhoodRow.neighborhood).count n

/-- The distinct neighborhoods occurring in the data (the keys of
`crime_counts_by_neighborhood`). -/
def neighborhoodsPresent (rows : List NeighborhoodRow) : List String :=
  pyUnique (rows.map NeighborhoodRow.neighborhood)

/-- The `match order_neighborhoods` of `plot_crimes_by_neighborhood`
(plotting_utils.py lines 485-497): `frequency` sorts the keys ascending
by their total count, `alphabetical` is `sorted(list(keys))`, and any
other value leaves `ordered_neighborhoods` unassigned. -/
def orderedNeighborhoodsOf (order : String) (rows : List NeighborhoodRow) :
    Option (List String) :=
  if order = "frequency" then
    some (List.insertionSort
      (fun a b => neighborhoodValueCounts rows a ≤ neighborhoodValueCounts rows b)
      (neighborhoodsPresent rows))
  else if order = "alphabetical" then
    some (List.insertionSort (· ≤ ·) (neighborhoodsPresent rows))
  else none

/-! ## Concrete instances used to exercise the theorems -/

/-- A call of `process_data` with all defaults on a readable file. -/
def procEnvCsv : ProcessEnv :=
  ⟨true, ["reported_date"], none, none, none, "csv", "crime.csv", true, true, true, true⟩

/-- A call of `process_data` with `drop_columns=['geo_x']` on a readable
file whose columns do not include `solumns`. -/
def procEnvDrop : ProcessEnv :=
  ⟨true, ["reported_date", "geo_x"], some ["geo_x"], none, none, "csv", "crime.csv",
    true, true, true, true⟩

/-- A run of `plot_data` in which the directory setup, both input files,
and both plotting functions are fine. -/
def plotEnvGood : PlotEnv := ⟨true, ⟨true, true⟩, true, true⟩

/-- A run of `plot_data` in which the processed file exists but
`plot_crimes_by_year` fails. -/
def plotEnvYearFails : PlotEnv := ⟨true, ⟨true, true⟩, false, true⟩

/-- A three-row dataset: two crimes in 2018 (January, February) and one in
2019 (January). -/
def pivotRows : List CrimeRow := [⟨2018, "jan"⟩, ⟨2019, "jan"⟩, ⟨2018, "feb"⟩]

/-! ## Helper lemmas -/

lemma mem_pyUniqueAux [DecidableEq α] (b : α) :
    ∀ (seen l : List α), b ∈ pyUniqueAux seen l ↔ b ∈ l ∧ b ∉ seen := by
  intro seen l
  induction l generalizing seen with
  | nil => simp [pyUniqueAux]
  | cons a l ih =>
      rw [pyUniqueAux]
      by_cases ha : a ∈ seen
      · rw [if_pos ha, ih]
        constructor
        · rintro ⟨hl, hs⟩; exact ⟨List.mem_cons_of_mem _ hl, hs⟩
        · rintro ⟨hl, hs⟩
          rcases List.mem_cons.mp hl with rfl | hl
          · exact absurd ha hs
          · exact ⟨hl, hs⟩
      · rw [if_neg ha]
        simp only [List.mem_cons, ih]
        constructor
        · rintro (rfl | ⟨hl, hs⟩)
          · exact ⟨Or.inl rfl, ha⟩
          · exact ⟨Or.inr hl, fun hb => hs (Or.inr hb)⟩
        · rintro ⟨rfl | hl, hs⟩
          · exact Or.inl rfl
          · by_cases hba : b = a
            · exact Or.inl hba
            · exact Or.inr ⟨hl, by simp [List.mem_cons, hba, hs]⟩

lemma nodup_pyUniqueAux [DecidableEq α] :
    ∀ (seen l : List α), (pyUniqueAux seen l).Nodup := by
  intro seen l
  induction l generalizing seen with
  | nil => simp [pyUniqueAux]
  | cons a l ih =>
      rw [pyUniqueAux]
      by_cases ha : a ∈ seen
      · rw [if_pos ha]; exact ih seen
      · rw [if_neg ha]
        refine List.nodup_cons.mpr ⟨fun hmem => ?_, ih (a :: seen)⟩
        exact ((mem_pyUniqueAux a _ l).mp hmem).2 (List.mem_cons_self a seen)

lemma mem_pyUnique [DecidableEq α] {l : List α} {b : α} :
    b ∈ pyUnique l ↔ b ∈ l := by
  rw [pyUnique, mem_pyUniqueAux]
  simp

lemma nodup_pyUnique [DecidableEq α] (l : List α) : (pyUnique l).Nodup :=
  nodup_pyUniqueAux [] l

lemma monthValueCounts_cons (r : CrimeRow) (rest : List CrimeRow) (m : String) :
    monthValueCounts (r :: rest) m =
      (if r.month = m then 1 else 0) + monthValueCounts rest m := by
  by_cases h : r.month = m <;>
    simp [monthValueCounts, List.count_cons, h, Nat.add_comm]

lemma yearMonthCount_cons (r : CrimeRow) (rest : List CrimeRow) (y : Int) (m : String) :
    yearMonthCount (r :: rest) y m =
      (if r.year = y ∧ r.month = m then 1 else 0) + yearMonthCount rest y m := by
  by_cases h1 : r.year = y <;> by_cases h2 : r.month = m <;>
    simp [yearMonthCount, List.filter_cons, List.count_cons, h1, h2, Nat.add_comm]

lemma yearMonthCount_eq_filter (rows : List CrimeRow) (y : Int) (m : String) :
    yearMonthCount rows y m =
      (rows.filter fun r => r.year = y ∧ r.month = m).length := by
  induction rows with
  | nil => rfl
  | cons r rest ih =>
      rw [yearMonthCount_cons, ih]
      by_cases h1 : r.year = y <;> by_cases h2 : r.month = m <;>
        simp [List.filter_cons, h1, h2, Nat.add_comm]

lemma monthValueCounts_eq_filter (rows : List CrimeRow) (m : String) :
    monthValueCounts rows m = (rows.filter fun r => r.month = m).length := by
  induction rows with
  | nil => rfl
  | cons r rest ih =>
      rw [monthValueCounts_cons, ih]
      by_cases h : r.month = m <;> simp [List.filter_cons, h, Nat.add_comm]

lemma sum_map_add_distrib (f g : α → Nat) (l : List α) :
    (l.map fun a => f a + g a).sum = (l.map f).sum + (l.map g).sum := by
  induction l with
  | nil => rfl
  | cons a l ih => simp [ih]; omega

lemma sum_map_ite_single [DecidableEq α] (ys : List α) (a : α) (k : Nat)
    (hnd : ys.Nodup) (ha : a ∈ ys) :
    (ys.map fun y => if a = y then k else 0).sum = k := by
  induction ys with
  | nil => cases ha
  | cons b ys ih =>
      rcases List.nodup_cons.mp hnd with ⟨hb, hnd'⟩
      by_cases hab : a = b
      · subst hab
        have hzero : (ys.map fun y => if a = y then k else 0).sum = 0 := by
          apply List.sum_eq_zero
          intro x hx
          rcases List.mem_map.mp hx with ⟨y, hy, rfl⟩
          rw [if_neg]
          rintro rfl
          exact hb hy
        simp [hzero]
      · have ha' : a ∈ ys := by
          rcases List.mem_cons.mp ha with rfl | h
          · exact absurd rfl hab
          · exact h
        simp [hab, ih hnd' ha']

lemma sum_yearMonthCount (m : String) (ys : List Int) (hnd : ys.Nodup) :
    ∀ rows : List CrimeRow, (∀ r ∈ rows, r.year ∈ ys) →
      (ys.map fun y => yearMonthCount rows y m).sum = monthValueCounts rows m := by
  intro rows
  induction rows with
  | nil =>
      intro _
      have : ∀ y : Int, yearMonthCount [] y m = 0 := fun _ => rfl
      simp [this, monthValueCounts]
  | cons r rest ih =>
      intro hmem
      have hr : r.year ∈ ys := hmem r (List.mem_cons_self r rest)
      have hrest : ∀ x ∈ rest, x.year ∈ ys :=
        fun x hx => hmem x (List.mem_cons_of_mem _ hx)
      calc (ys.map fun y => yearMonthCount (r :: rest) y m).sum
          = (ys.map fun y =>
              (if r.year = y ∧ r.month = m then 1 else 0) + yearMonthCount rest y m).sum := by
            congr 1
            exact List.map_congr_left fun y _ => yearMonthCount_cons r rest y m
        _ = (ys.map fun y => if r.year = y ∧ r.month = m then 1 else 0).sum
              + (ys.map fun y => yearMonthCount rest y m).sum :=
            sum_map_add_distrib _ _ ys
        _ = (if r.month = m then 1 else 0) + monthValueCounts rest m := by
            rw [ih hrest]
            congr 1
            by_cases hm : r.month = m
            · simpa [hm] using sum_map_ite_single ys r.year 1 hnd hr
            · simp [hm]
        _ = monthValueCounts (r :: rest) m := (monthValueCounts_cons r rest m).symm

/-! ## Claim theorems -/

/-- C2 (code_bug): evaluating run.py's dispatch at each single-action
list: `collect` and `process` do run their stage functions, but `plot`
raises `NameError` (run.py line 24 imports only `collect_data` and
`process_data`, so `plot_data` at line 82 is undefined), and `all` only
matches the wildcard `case _: pass` and runs no stage at all, contradicting
run.py's own help text and comments. -/
theorem actions_dispatch_gaps :
    runScript ⟨true, true⟩ [Action.collect] = ([Action.collect], .finished) ∧
    runScript ⟨true, true⟩ [Action.process] = ([Action.process], .finished) ∧
    runScript ⟨true, true⟩ [Action.plot] = ([], .raised .nameError) ∧
    runScript ⟨true, true⟩ [Action.all] = ([], .finished) := by
  decide

/-- C3 (counterexample): with `--actions collect process`, run.py executes
`process_data` first and `collect_data` second, so the stages do NOT run in
pipeline order as the claim states. -/
theorem pipeline_order_counterexample :
    (runScript ⟨true, true⟩ [Action.collect, Action.process]).1 =
      [Action.process, Action.collect] ∧
    (runScript ⟨true, true⟩ [Action.collect, Action.process]).1 ≠
      [Action.collect, Action.process] := by
  decide

/-- C3 (amended): for every valid two-element `--actions` list (any pair
drawn from `collect`/`process`/`plot`; pairs with `all` are rejected by
run.py's validation) the dispatch loop pops arguments off the END of the
list, so the second listed stage is dispatched before the first: a pair
drawn from `collect`/`process` runs in reverse list order and finishes; a
list ending in `plot` raises `NameError` immediately and runs nothing;
and a list starting with `plot` runs the other stage first and then
raises `NameError`. -/
theorem two_actions_reverse_order (a b : Action)
    (ha : a = Action.collect ∨ a = Action.process ∨ a = Action.plot)
    (hb : b = Action.collect ∨ b = Action.process ∨ b = Action.plot) :
    (b = Action.plot →
       runScript ⟨true, true⟩ [a, b] = ([], .raised .nameError)) ∧
    (b ≠ Action.plot → a = Action.plot →
       runScript ⟨true, true⟩ [a, b] = ([b], .raised .nameError)) ∧
    (b ≠ Action.plot → a ≠ Action.plot →
       runScript ⟨true, true⟩ [a, b] = ([b, a], .finished)) := by
  rcases ha with rfl | rfl | rfl <;> rcases hb with rfl | rfl | rfl <;>
    refine ⟨fun h1 => ?_, fun h1 h2 => ?_, fun h1 h2 => ?_⟩ <;>
    first | rfl | decide | simp_all

/-- C3 (witness): the amended theorem applied to `['collect', 'process']`:
`process_data` runs first, then `collect_data`. -/
theorem two_actions_reverse_order_witness :
    runScript ⟨true, true⟩ [Action.collect, Action.process] =
      ([Action.process, Action.collect], RunOutcome.finished) :=
  (two_actions_reverse_order Action.collect Action.process
    (Or.inl rfl) (Or.inr (Or.inl rfl))).2.2 (by decide) (by decide)

/-- C4 (counterexample): in `plot_crimes_by_month` a failure of the
`export_png` save step is caught and its message printed, yet the function
returns `True`, not `False` as the claim requires of every step. -/
theorem save_step_counterexample :
    plotCrimesByMonthStage ⟨true, true, true, true, true, false⟩ =
      (.returned true, ["There was an error saving the file to the specified location"]) ∧
    (plotCrimesByMonthStage ⟨true, true, true, true, true, false⟩).1 ≠ .returned false := by
  decide

/-- C4 (amended): failures of the dataframe-processing and figure-building
blocks of `plot_crimes_by_month` are caught, print a message, and return
`False`; but (1) a failure of the final save step prints its message yet
still returns `True`; (2) the precondition `assert` and the
`pd.to_datetime` date parsing are outside every try/except and escape as
`AssertionError` and `ValueError`; (3) a NaN finding raises
`NanException`, which derives `BaseException` and so escapes the
`except Exception` handler; (4) in `collect_data` the uncaught
`requests.get` escapes and a failed download loop is caught but returns
`False` WITHOUT printing any message; and (5) the `open` in
`process_data` is outside every try/except, so a missing input file
escapes as `FileNotFoundError`. -/
theorem month_stage_step_outcomes (env : MonthStageEnv) (cenv : CollectEnv)
    (penv : ProcessEnv) :
    (env.hasReportedDate = false →
       plotCrimesByMonthStage env = (.raised .assertionError, [])) ∧
    (env.hasReportedDate = true → env.toDatetimeOk = false →
       plotCrimesByMonthStage env = (.raised .valueError, [])) ∧
    (env.hasReportedDate = true → env.toDatetimeOk = true →
       env.processOk = false →
       plotCrimesByMonthStage env =
         (.returned false, ["There was an error processing the data prior to plotting"])) ∧
    (env.hasReportedDate = true → env.toDatetimeOk = true →
       env.processOk = true → env.nanFree = false →
       plotCrimesByMonthStage env = (.raised .nanException, [])) ∧
    (env.hasReportedDate = true → env.toDatetimeOk = true →
       env.processOk = true → env.nanFree = true → env.figureOk = false →
       plotCrimesByMonthStage env =
         (.returned false, ["There was an error plotting the data"])) ∧
    (env.hasReportedDate = true → env.toDatetimeOk = true →
       env.processOk = true → env.nanFree = true → env.figureOk = true →
       env.saveOk = false →
       plotCrimesByMonthStage env =
         (.returned true, ["There was an error saving the file to the specified location"])) ∧
    ((cenv.mkdirOk = true ∨ cenv.userConsent = true) → cenv.requestOk = false →
       collectData cenv = (.raised .connectionError, [])) ∧
    ((cenv.mkdirOk = true ∨ cenv.userConsent = true) → cenv.requestOk = true →
       cenv.downloadOk = false → collectData cenv = (.returned false, [])) ∧
    processDataCall false penv = .error .fileNotFoundError := by
  refine ⟨fun h1 => by simp [plotCrimesByMonthStage, h1],
    fun h1 h2 => by simp [plotCrimesByMonthStage, h1, h2],
    fun h1 h2 h3 => by simp [plotCrimesByMonthStage, h1, h2, h3],
    fun h1 h2 h3 h4 => by simp [plotCrimesByMonthStage, h1, h2, h3, h4],
    fun h1 h2 h3 h4 h5 => by simp [plotCrimesByMonthStage, h1, h2, h3, h4, h5],
    fun h1 h2 h3 h4 h5 h6 => by
      simp [plotCrimesByMonthStage, h1, h2, h3, h4, h5, h6],
    fun hmc hreq => ?_, fun hmc hreq hdl => ?_, rfl⟩
  · rcases hmc with h | h <;> simp [collectData, h, hreq]
  · rcases hmc with h | h <;> simp [collectData, h, hreq, hdl]

/-- C4 (witness): the amended theorem applied to a run whose only failing
step is the save: the stage still returns `True`. -/
theorem month_stage_step_outcomes_witness :
    plotCrimesByMonthStage ⟨true, true, true, true, true, false⟩ =
      (.returned true, ["There was an error saving the file to the specified location"]) :=
  (month_stage_step_outcomes ⟨true, true, true, true, true, false⟩
    ⟨true, true, true, true⟩ procEnvCsv).2.2.2.2.2.1 rfl rfl rfl rfl rfl rfl

/-- C7 (confirmed): on a readable file, with `drop_columns` left at its
default (so the precondition assert short-circuits) and the optional
dataframe steps succeeding, `process_data` writes
`<base>_processed.csv` and returns `True` for `outfile_format='csv'`,
writes `<base>_processed.parquet` and returns `True` for `'parquet'`, and
for every other value raises `UnsupportedFileTypeError` writing nothing
(`<base>` being `fname.split('.')[0]`). -/
theorem process_outfile_formats (env : ProcessEnv)
    (hread : env.readOk = true) (hdrop : env.dropColumns = none)
    (hna : env.dropnaOk = true) (hnorm : env.applymapOk = true) :
    (env.outfileFormat = "csv" →
       processData env =
         ⟨.ok true, [fileBaseName env.fname ++ "_processed.csv"], [], false⟩) ∧
    (env.outfileFormat = "parquet" →
       processData env =
         ⟨.ok true, [fileBaseName env.fname ++ "_processed.parquet"], [], false⟩) ∧
    (env.outfileFormat ≠ "csv" → env.outfileFormat ≠ "parquet" →
       processData env = ⟨.error .unsupportedFileTypeError, [], [], false⟩) := by
  have h1 : processDataNormalize env false = processDataWrite env false := by
    by_cases hl : env.normalization = some "lower"
    · simp [processDataNormalize, hl, hnorm]
    · by_cases hu : env.normalization = some "upper"
      · simp [processDataNormalize, hl, hu, hnorm]
      · simp [processDataNormalize, hl, hu]
  have h2 : processDataHandleNa env false = processDataWrite env false := by
    by_cases hr : env.handleNa = some "drop_row"
    · simp [processDataHandleNa, hr, hna, h1]
    · by_cases hc : env.handleNa = some "drop_column"
      · simp [processDataHandleNa, hr, hc, hna, h1]
      · simp [processDataHandleNa, hr, hc, h1]
  have hbase : processData env = processDataWrite env false := by
    simp [processData, hread, hdrop, h2]
  refine ⟨fun hc => ?_, fun hp => ?_, fun hc hp => ?_⟩
  · rw [hbase]; simp [processDataWrite, hc]
  · rw [hbase]; simp [processDataWrite, hp]
  · rw [hbase]; simp [processDataWrite, hc, hp]

/-- C7 (witness): the theorem applied to a default call on `crime.csv`
with `outfile_format='csv'`: the file written is `crime_processed.csv`. -/
theorem process_outfile_formats_witness :
    (processData procEnvCsv).result = Except.ok true ∧
    (processData procEnvCsv).writes = ["crime_processed.csv"] := by
  have h := (process_outfile_formats procEnvCsv rfl rfl rfl rfl).1 rfl
  rw [h]
  exact ⟨rfl, rfl⟩

/-- C8 (confirmed): over any accept/reject lists with no common entry (as
at both call sites), `validate` returns `True` iff the first input
belonging to either list belongs to the accept list, returns `False` iff
that input belongs to the reject list, and never returns on a stream whose
inputs belong to neither list (it re-prompts on each of them). -/
theorem validate_first_decides (accept reject : List String)
    (hdisj : ∀ s ∈ accept, s ∉ reject)
    (pre : List String) (x : String) (rest : List String)
    (hpre : ∀ y ∈ pre, y ∉ accept ∧ y ∉ reject)
    (hx : x ∈ accept ∨ x ∈ reject) :
    (validate accept reject (pre ++ x :: rest) = some true ↔ x ∈ accept) ∧
    (validate accept reject (pre ++ x :: rest) = some false ↔ x ∈ reject) ∧
    (∀ inputs : List String, (∀ y ∈ inputs, y ∉ accept ∧ y ∉ reject) →
       validate accept reject inputs = none) := by
  have hskip : validate accept reject (pre ++ x :: rest) =
      validate accept reject (x :: rest) := by
    induction pre with
    | nil => rfl
    | cons y t ih =>
        have hy := hpre y (List.mem_cons_self y t)
        calc validate accept reject ((y :: t) ++ x :: rest)
            = validate accept reject (t ++ x :: rest) := by
              rw [List.cons_append,
                show validate accept reject (y :: (t ++ x :: rest)) =
                  if y ∈ accept then some true
                  else if y ∈ reject then some false
                  else validate accept reject (t ++ x :: rest) from rfl,
                if_neg hy.1, if_neg hy.2]
          _ = _ := ih fun z hz => hpre z (List.mem_cons_of_mem _ hz)
  have hcons : validate accept reject (x :: rest) =
      if x ∈ accept then some true
      else if x ∈ reject then some false
      else validate accept reject rest := rfl
  refine ⟨?_, ?_, ?_⟩
  · rw [hskip, hcons]
    by_cases ha : x ∈ accept
    · simp [ha]
    · rcases hx with h | h
      · exact absurd h ha
      · simp [ha, h]
  · rw [hskip, hcons]
    by_cases ha : x ∈ accept
    · simp [ha, hdisj x ha]
    · rcases hx with h | h
      · exact absurd h ha
      · simp [ha, h]
  · intro inputs
    induction inputs with
    | nil => intro _; rfl
    | cons y t ih =>
        intro h
        have hy := h y (List.mem_cons_self y t)
        rw [show validate accept reject (y :: t) =
            if y ∈ accept then some true
            else if y ∈ reject then some false
            else validate accept reject t from rfl,
          if_neg hy.1, if_neg hy.2]
        exact ih fun z hz => h z (List.mem_cons_of_mem _ hz)

/-- C8 (witness): the theorem applied to the prompt's accept/reject lists
and the stream `["maybe", "y"]`: the invalid input is re-prompted past and
the `y` accepts. -/
theorem validate_first_decides_witness :
    validate ["Y", "y"] ["N", "n"] ["maybe", "y"] = some true := by
  have h := (validate_first_decides ["Y", "y"] ["N", "n"] (by decide)
    ["maybe"] "y" [] (by decide) (Or.inl (by decide))).1
  exact h.mpr (by decide)

/-- C9 (confirmed): whenever `process_data` is called with a non-`None`
`drop_columns` on a successfully read frame having no column literally
named `solumns`, the precondition assert evaluates `frame.solumns` and the
resulting `AttributeError` escapes: no flag is returned, nothing is
written, and the column-dropping step is never reached. -/
theorem drop_columns_attribute_error (env : ProcessEnv) (dc : List String)
    (hread : env.readOk = true) (hdrop : env.dropColumns = some dc)
    (hsol : "solumns" ∉ env.columns) :
    processData env = ⟨.error .attributeError, [], [], false⟩ := by
  simp [processData, hread, hdrop, hsol]

/-- C9 (witness): the theorem applied to a call with
`drop_columns=['geo_x']` on the crime dataframe. -/
theorem drop_columns_attribute_error_witness :
    processData procEnvDrop =
      ⟨Except.error PyExc.attributeError, [], [], false⟩ :=
  drop_columns_attribute_error procEnvDrop ["geo_x"] rfl rfl (by decide)

/-- C5 (confirmed): the year-keyed pivot of `plot_crimes_by_month` is a
faithful regrouping: its keys are exactly the years appearing in the data;
each year's series has one entry per month of `ordered_months`, the entry
being the count of that year's crimes in that month (`0` when absent); and
the sum of the per-year counts of any month over all pivot years equals
that month's total crime count. -/
theorem month_pivot_faithful (rows : List CrimeRow) (om : List String) :
    (∀ y : Int,
       y ∈ (forPlotSeries rows om).map Prod.fst ↔ y ∈ rows.map CrimeRow.year) ∧
    (∀ p ∈ forPlotSeries rows om,
       p.2.length = om.length ∧
       p.2 = om.map fun m =>
         (rows.filter fun r => r.year = p.1 ∧ r.month = m).length) ∧
    (∀ m, ((forPlotSeries rows om).map fun p => yearMonthCount rows p.1 m).sum
        = monthValueCounts rows m) ∧
    (∀ m, monthValueCounts rows m = (rows.filter fun r => r.month = m).length) := by
  refine ⟨?_, ?_, ?_, ?_⟩
  · intro y
    have hfst : (forPlotSeries rows om).map Prod.fst = uniqueYears rows := by
      simp [forPlotSeries, List.map_map, Function.comp_def]
    rw [hfst, uniqueYears, mem_pyUnique]
  · intro p hp
    rcases List.mem_map.mp hp with ⟨y, _, rfl⟩
    refine ⟨by simp [yearSeries], ?_⟩
    simp only [yearSeries]
    exact List.map_congr_left fun m _ => yearMonthCount_eq_filter rows y m
  · intro m
    have hcomp : ((forPlotSeries rows om).map fun p => yearMonthCount rows p.1 m)
        = (uniqueYears rows).map fun y => yearMonthCount rows y m := by
      simp [forPlotSeries, List.map_map, Function.comp_def]
    rw [hcomp]
    exact sum_yearMonthCount m (uniqueYears rows) (nodup_pyUnique _) rows
      fun r hr => mem_pyUnique.mpr (List.mem_map_of_mem CrimeRow.year hr)
  · intro m
    exact monthValueCounts_eq_filter rows m

/-- C5 (witness): on the three-row dataset, the 2018 series over
`["jan", "feb"]` is the per-month count list of the 2018 rows. -/
theorem month_pivot_faithful_witness :
    yearSeries pivotRows ["jan", "feb"] 2018 =
      ["jan", "feb"].map fun m =>
        (pivotRows.filter fun r => r.year = 2018 ∧ r.month = m).length := by
  have h := (month_pivot_faithful pivotRows ["jan", "feb"]).2.1
    ((2018 : Int), yearSeries pivotRows ["jan", "feb"] 2018) (by decide)
  exact h.2

/-- C6 (confirmed): the ordering policies order the x-axis categories as
named: `sort_months='year_order'` yields the twelve months January through
December in calendar order; `sort_months='count_order'` yields the
occurring months sorted (ascending) by total crime count;
`order_neighborhoods='frequency'` yields the neighborhoods sorted by total
crime count; `'alphabetical'` yields them in alphabetical order. -/
theorem ordering_policies (rows : List CrimeRow) (nrows : List NeighborhoodRow) :
    orderedMonthsOf "year_order" rows = some monthsMapValues ∧
    monthsMapValues =
      ["jan", "feb", "mar", "apr", "may", "jun",
       "jul", "aug", "sep", "oct", "nov", "dec"] ∧
    (∃ l, orderedMonthsOf "count_order" rows = some l ∧
       l.Perm (monthsPresent rows) ∧
       l.Sorted fun a b => monthValueCounts rows a ≤ monthValueCounts rows b) ∧
    (∃ l, orderedNeighborhoodsOf "frequency" nrows = some l ∧
       l.Perm (neighborhoodsPresent nrows) ∧
       l.Sorted fun a b =>
         neighborhoodValueCounts nrows a ≤ neighborhoodValueCounts nrows b) ∧
    (∃ l, orderedNeighborhoodsOf "alphabetical" nrows = some l ∧
       l.Perm (neighborhoodsPresent nrows) ∧
       l.Sorted (· ≤ · : String → String → Prop)) := by
  refine ⟨by simp [orderedMonthsOf], rfl, ?_, ?_, ?_⟩
  · refine ⟨List.insertionSort
        (fun a b => monthValueCounts rows a ≤ monthValueCounts rows b)
        (monthsPresent rows),
      by simp [orderedMonthsOf], List.perm_insertionSort _ _, ?_⟩
    haveI : IsTotal String fun a b =>
        monthValueCounts rows a ≤ monthValueCounts rows b :=
      ⟨fun a b => Nat.le_total _ _⟩
    haveI : IsTrans String fun a b =>
        monthValueCounts rows a ≤ monthValueCounts rows b :=
      ⟨fun _ _ _ hab hbc => Nat.le_trans hab hbc⟩
    exact List.sorted_insertionSort _ _
  · refine ⟨List.insertionSort
        (fun a b => neighborhoodValueCounts nrows a ≤ neighborhoodValueCounts nrows b)
        (neighborhoodsPresent nrows),
      by simp [orderedNeighborhoodsOf], List.perm_insertionSort _ _, ?_⟩
    haveI : IsTotal String fun a b =>
        neighborhoodValueCounts nrows a ≤ neighborhoodValueCounts nrows b :=
      ⟨fun a b => Nat.le_total _ _⟩
    haveI : IsTrans String fun a b =>
        neighborhoodValueCounts nrows a ≤ neighborhoodValueCounts nrows b :=
      ⟨fun _ _ _ hab hbc => Nat.le_trans hab hbc⟩
    exact List.sorted_insertionSort _ _
  · refine ⟨List.insertionSort (· ≤ ·) (neighborhoodsPresent nrows),
      by simp [orderedNeighborhoodsOf], List.perm_insertionSort _ _, ?_⟩
    haveI : IsTotal String fun a b : String => a ≤ b :=
      ⟨fun a b => le_total a b⟩
    haveI : IsTrans String fun a b : String => a ≤ b :=
      ⟨fun _ _ _ hab hbc => le_trans hab hbc⟩
    exact List.sorted_insertionSort _ _

/-- C1 (counterexample): in an environment in which the directory setup,
the data files and the plotting functions are all fine, selecting the
season report makes `plot_data` raise `UnsupportedPlotError` and produce
no chart: plotting.py line 105 supports only `crimes_by_year` and
`crimes_by_month`. -/
theorem five_variants_counterexample :
    plotData plotEnvGood [("crimes_by_season", true)] =
      ⟨.raised .unsupportedPlotError, []⟩ := by
  decide

/-- C1 (amended): `plot_data` renders exactly two of the five report
variants: the `crimes_by_year` and `crimes_by_month` selections produce
their charts, while each of `crimes_by_type`, `crimes_by_season` and
`crimes_by_neighborhood` raises `UnsupportedPlotError` (their chart
functions exist in plotting_utils.py but `plot_data` does not dispatch
them). -/
theorem supported_plot_variants (env : PlotEnv)
    (hdir : env.dirOk = true)
    (hfile : env.fs.processedExists = true ∨ env.fs.rawExists = true)
    (hyear : env.yearPlotOk = true) (hmonth : env.monthPlotOk = true) :
    plotData env [("crimes_by_year", true)] =
      ⟨.returned true, ["crimes_by_year"]⟩ ∧
    plotData env [("crimes_by_month", true)] =
      ⟨.returned true, ["crimes_by_month"]⟩ ∧
    plotData env [("crimes_by_type", true)] =
      ⟨.raised .unsupportedPlotError, []⟩ ∧
    plotData env [("crimes_by_season", true)] =
      ⟨.raised .unsupportedPlotError, []⟩ ∧
    plotData env [("crimes_by_neighborhood", true)] =
      ⟨.raised .unsupportedPlotError, []⟩ := by
  obtain ⟨d, ⟨pe, re⟩, py, pm⟩ := env
  cases d <;> cases pe <;> cases re <;> cases py <;> cases pm <;>
    first
      | exact absurd hdir (by decide)
      | exact absurd hyear (by decide)
      | exact absurd hmonth (by decide)
      | (rcases hfile with h | h
         · exact absurd h (by decide)
         · exact absurd h (by decide))
      | decide

/-- C1 (witness): the amended theorem applied to the all-good environment:
the year chart is produced. -/
theorem supported_plot_variants_witness :
    plotData plotEnvGood [("crimes_by_year", true)] =
      ⟨PlotsResult.returned true, ["crimes_by_year"]⟩ :=
  (supported_plot_variants plotEnvGood rfl (Or.inl rfl) rfl rfl).1

/-- C10 (counterexample): `plot_data` can return `False` although
`crime_processed.csv` exists: with both data files present but the year
plot failing, the selected chart's failure makes `plot_data` return
`False`, so "returns False only when neither file exists" is not true of
the whole function. -/
theorem fallback_only_counterexample :
    plotEnvYearFails.fs.processedExists = true ∧
    plotEnvYearFails.fs.rawExists = true ∧
    (plotData plotEnvYearFails [("crimes_by_year", true)]).result =
      PlotsResult.returned false := by
  decide

/-- C10 (amended): `plot_data` prefers processed data with a raw-data
fallback: if `crime_processed.csv` exists it is loaded with the processed
indicator `True`; otherwise `crime.csv` is loaded with the indicator left
`False`; the load phase fails exactly when neither file exists, in which
case `plot_data` prints and returns `False`; and `plot_data` returns
`False` only when the load failed or one of the selected charts failed to
render. -/
theorem load_preference (env : PlotEnv) (kwargs : List (String × Bool)) :
    (env.fs.processedExists = true →
       loadCrimeData env.fs = some (.processedFile, true)) ∧
    (env.fs.processedExists = false → env.fs.rawExists = true →
       loadCrimeData env.fs = some (.rawFile, false)) ∧
    (loadCrimeData env.fs = none ↔
       env.fs.processedExists = false ∧ env.fs.rawExists = false) ∧
    (env.dirOk = true →
       (kwargs.all fun kv => decide (kv.1 ∈ SUPPORTED_PLOTS)) = true →
       loadCrimeData env.fs = none →
       plotData env kwargs = ⟨.returned false, []⟩) ∧
    ((plotData env kwargs).result = .returned false →
       loadCrimeData env.fs = none ∨
       (kwLookup kwargs "crimes_by_year" = true ∧ env.yearPlotOk = false) ∨
       (kwLookup kwargs "crimes_by_month" = true ∧ env.monthPlotOk = false)) := by
  refine ⟨fun hp => by simp [loadCrimeData, hp],
    fun hp hr => by simp [loadCrimeData, hp, hr], ?_,
    fun hdir hsup hnone => by simp [plotData, hdir, hsup, hnone], ?_⟩
  · cases hpe : env.fs.processedExists <;> cases hre : env.fs.rawExists <;>
      simp [loadCrimeData, hpe, hre]
  · intro hfalse
    by_cases hd : env.dirOk = false
    · simp [plotData, hd] at hfalse
    · have hd' : env.dirOk = true := by
        cases h : env.dirOk
        · exact absurd h hd
        · rfl
      by_cases hs : (kwargs.all fun kv => decide (kv.1 ∈ SUPPORTED_PLOTS)) = false
      · simp [plotData, hd', hs] at hfalse
      · have hs' : (kwargs.all fun kv => decide (kv.1 ∈ SUPPORTED_PLOTS)) = true := by
          cases h : (kwargs.all fun kv => decide (kv.1 ∈ SUPPORTED_PLOTS))
          · exact absurd h hs
          · rfl
        rcases hload : loadCrimeData env.fs with _ | src
        · exact Or.inl rfl
        · cases hcby : kwLookup kwargs "crimes_by_year" <;>
            cases hy : env.yearPlotOk <;>
            cases hcbm : kwLookup kwargs "crimes_by_month" <;>
            cases hm : env.monthPlotOk <;>
            simp [plotData, hd', hs', hload, hcby, hy, hcbm, hm] at hfalse <;>
            first
              | exact Or.inr (Or.inl ⟨rfl, rfl⟩)
              | exact Or.inr (Or.inr ⟨rfl, rfl⟩)

/-- C10 (witness): the amended theorem applied to a filesystem with both
files: the processed file is preferred and the indicator is `True`. -/
theorem load_preference_witness :
    loadCrimeData ⟨true, true⟩ = some (DataSource.processedFile, true) :=
  (load_preference plotEnvGood []).1 rfl

end DenverCrime
